import Mathlib

/-!
Shallow embedding of the tool-augmented generation core of the course-material
RAG chatbot: `backend/ai_generator.py` (the round-bounded orchestrator
`AIGenerator.generate_response`) and `backend/search_tools.py`
(`CourseSearchTool`, `ToolManager`).

The completion service is an external collaborator: a run is parameterised by
the ordered list of responses (the "script") the service returns, one per
issued request, and the embedding records every request issued (its message
list, and whether the `tools` / `tool_choice` fields were attached).  Raised
Python exceptions are modelled as `Except.error` values carrying
`type(e).__name__` and `str(e)`; Python `None` as `Option.none`; Python dicts
as insertion-ordered association lists.
-/

/-- A structured source citation `{text, url}` as built by search_tools.py
(`url` may be `None`). -/
structure SourceCitation where
  text : String
  url : Option String
deriving DecidableEq, Repr

/-- One content block of a completion response: a text segment, or a tool-use
request `{id, name, input}`.  Tool arguments are modelled as a string-keyed
list of string values; the orchestrator only passes them through. -/
inductive ContentBlock where
  | text (s : String)
  | toolUse (id : String) (name : String) (input : List (String × String))
deriving DecidableEq, Repr

/-- A completion-service response.  ai_generator.py reads exactly two fields:
`stop_reason` and `content`. -/
structure Response where
  stop_reason : String
  content : List ContentBlock
deriving DecidableEq, Repr

/-- A raised Python exception as the orchestrator observes it:
`type(e).__name__` and `str(e)`. -/
structure PyError where
  kind : String
  msg : String
deriving DecidableEq, Repr

/-- One entry of the batched tool-result message
(`{"type": "tool_result", "tool_use_id": ..., "content": ...}`). -/
structure ToolResult where
  tool_use_id : String
  content : String
deriving DecidableEq, Repr

/-- The content of one chat message: the user query string, an assistant
response's raw content blocks, or a batch of tool results. -/
inductive MsgContent where
  | text (s : String)
  | blocks (bs : List ContentBlock)
  | toolResults (rs : List ToolResult)
deriving DecidableEq, Repr

/-- One `{role, content}` message of the request's message list. -/
structure ChatMessage where
  role : String
  content : MsgContent
deriving DecidableEq, Repr

/-- A tool definition as the registry and the completion request carry it.
Only the `"name"` key is ever read by the embedded code
(`tool_def.get("name")` in `register_tool`); `none` models an absent key. -/
structure ToolDef where
  name : Option String
deriving DecidableEq, Repr

/-- One request issued to the completion service: the message list and the
optional `tools` / `tool_choice` fields (`tool_choice` is the `"auto"` marker
exactly when the tool catalog is attached), plus the `system` string.  The
`model` / `temperature` / `max_tokens` fields of `base_params` never change
and never influence control flow; they are omitted. -/
structure Request where
  messages : List ChatMessage
  tools : Option (List ToolDef)
  tool_choice : Option String
  system : String
deriving DecidableEq, Repr

/-- The registry interface as the orchestrator uses it:
`tool_manager.execute_tool(name, **kwargs)`, returning a string or raising
(`Except.error`). -/
abbrev ToolExec : Type := String → List (String × String) → Except PyError String

/-- ai_generator.py line 8. -/
def MAX_TOOL_ROUNDS : Nat := 2

/-- ai_generator.py line 166. -/
def emptyResponseError : String :=
  "Error: Received empty response from Claude API. Please try again."

/-- ai_generator.py line 175. -/
def noTextError : String :=
  "Error: Received response with no text content from Claude API. Please try again."

/-- The error string the orchestrator synthesises for a tool invocation whose
execution raised (ai_generator.py line 132). -/
def toolErrorString (name : String) (e : PyError) : String :=
  "Error executing tool '" ++ name ++ "': " ++ e.kind ++ ": " ++ e.msg

/-- The tool-result batch of one round (ai_generator.py lines 115-140, the
`for content_block in response.content` loop).  A raised exception becomes
the `toolErrorString`; successful results are already strings here, so the
`str()` coercion of line 126 is the identity. -/
def round_results (et : ToolExec) : List ContentBlock → List ToolResult
  | [] => []
  | .text _ :: rest => round_results et rest
  | .toolUse id name input :: rest =>
    (match et name input with
     | .ok s => ⟨id, s⟩
     | .error e => ⟨id, toolErrorString name e⟩) :: round_results et rest

/-- `any_tool_succeeded` of one round (ai_generator.py lines 117, 127): true
iff some tool_use block's execution did not raise. -/
def round_any_ok (et : ToolExec) : List ContentBlock → Bool
  | [] => false
  | .text _ :: rest => round_any_ok et rest
  | .toolUse _ name input :: rest =>
    (match et name input with
     | .ok _ => true
     | .error _ => false) || round_any_ok et rest

/-- The first content block of text kind (ai_generator.py lines 168-170). -/
def firstText : List ContentBlock → Option String
  | [] => none
  | .text s :: _ => some s
  | .toolUse _ _ _ :: rest => firstText rest

/-- Text extraction from the final response (ai_generator.py lines 163-175):
empty content and missing text blocks yield literal error strings. -/
def extract_final (content : List ContentBlock) : String :=
  match content with
  | [] => emptyResponseError
  | _ =>
    match firstText content with
    | some s => s
    | none => noTextError

/-- The system content (ai_generator.py lines 82-87): the static prompt, with
the history block appended when `conversation_history` is truthy (an empty
history string is falsy).  The prompt text never influences control flow and
is a parameter. -/
def system_content (system_prompt : String) : Option String → String
  | some h =>
    if h = "" then system_prompt
    else system_prompt ++ "\n\nPrevious conversation:\n" ++ h
  | none => system_prompt

/-- The `while True` round loop (ai_generator.py lines 101-147), recursing on
the completion script.  Returns the requests issued inside the loop, the
response the loop exited with, the message list at exit, and the unconsumed
script tail; `none` when the script is shorter than the number of requests
the run issues (the real service always answers). -/
def tool_loop (tm : Option ToolExec) (catalog : Option (List ToolDef))
    (sys : String) :
    List Response → List ChatMessage → Nat →
    Option (List Request × Response × List ChatMessage × List Response)
  | [], _, _ => none
  | resp :: rest, msgs, rounds =>
    let req : Request := ⟨msgs, catalog, catalog.map fun _ => "auto", sys⟩
    match tm with
    | none => some ([req], resp, msgs, rest)
    | some et =>
      if resp.stop_reason = "tool_use" then
        let msgs2 := (msgs ++ [⟨"assistant", .blocks resp.content⟩])
          ++ [⟨"user", .toolResults (round_results et resp.content)⟩]
        if MAX_TOOL_ROUNDS ≤ rounds + 1 || !(round_any_ok et resp.content) then
          some ([req], resp, msgs2, rest)
        else
          match tool_loop tm catalog sys rest msgs2 (rounds + 1) with
          | none => none
          | some (trace, fr, fm, rem) => some (req :: trace, fr, fm, rem)
      else
        some ([req], resp, msgs, rest)

/-- AIGenerator.generate_response (ai_generator.py lines 55-175), relative to
a completion script.  `tools` is the caller's catalog (`[]` covers both
Python `None` and an empty list, which are equally falsy at line 97).
Returns the ordered list of issued requests and the answer string; `none`
when the script runs out. -/
def generate_response (system_prompt : String) (script : List Response)
    (tools : List ToolDef) (tool_manager : Option ToolExec)
    (query : String) (conversation_history : Option String) :
    Option (List Request × String) :=
  let sys := system_content system_prompt conversation_history
  let catalog : Option (List ToolDef) := if tools.isEmpty then none else some tools
  let msgs0 : List ChatMessage := [⟨"user", .text query⟩]
  match tool_loop tool_manager catalog sys script msgs0 0 with
  | none => none
  | some (trace, resp, msgs, rest) =>
    if resp.stop_reason = "tool_use" then
      match rest with
      | [] => none
      | fresp :: _ =>
        some (trace ++ [⟨msgs, none, none, sys⟩], extract_final fresp.content)
    else
      some (trace, extract_final resp.content)

/-- A registered tool instance as the registry sees it: its definition's name,
its `execute(**kwargs)` behaviour (`Except.error` models a raised exception),
and its citation-tracking state (`has_last_sources` models
`hasattr(tool, 'last_sources')`). -/
structure MTool where
  def_name : Option String
  run : List (String × String) → Except PyError String
  has_last_sources : Bool
  last_sources : List SourceCitation

/-- ToolManager (search_tools.py lines 248-286): a name-keyed,
insertion-ordered mapping of tool instances (a Python dict). -/
structure ToolManager where
  tools : List (String × MTool)

/-- Python dict read `d.get(k)` over the association-list model. -/
def dictLookup (d : List (String × MTool)) (k : String) : Option MTool :=
  (d.find? fun p => p.1 = k).map Prod.snd

/-- Python dict write `d[k] = v`: replaces in place when the key exists,
appends otherwise (insertion order preserved). -/
def dictInsert (d : List (String × MTool)) (k : String) (v : MTool) :
    List (String × MTool) :=
  if d.any fun p => p.1 = k then d.map fun p => if p.1 = k then (k, v) else p
  else d ++ [(k, v)]

/-- ToolManager.register_tool (search_tools.py lines 254-260):
`tool_def.get("name")` must be truthy (present and non-empty), else
`ValueError`; then `self.tools[tool_name] = tool`. -/
def ToolManager.register_tool (tm : ToolManager) (t : MTool) :
    Except String ToolManager :=
  match t.def_name with
  | none => .error "Tool must have a 'name' in its definition"
  | some s =>
    if s = "" then .error "Tool must have a 'name' in its definition"
    else .ok ⟨dictInsert tm.tools s t⟩

/-- ToolManager.execute_tool (search_tools.py lines 267-272): an unknown name
yields the literal not-found string (no exception); a known tool runs and may
raise. -/
def ToolManager.execute_tool (tm : ToolManager) : ToolExec := fun name kwargs =>
  match dictLookup tm.tools name with
  | none => .ok ("Tool '" ++ name ++ "' not found")
  | some t => t.run kwargs

/-- ToolManager.get_last_sources (search_tools.py lines 274-280): scan the
tools in insertion order and return the first truthy `last_sources`. -/
def ToolManager.get_last_sources (tm : ToolManager) : List SourceCitation :=
  match tm.tools.find? fun p => p.2.has_last_sources && !p.2.last_sources.isEmpty with
  | some p => p.2.last_sources
  | none => []

/-- ToolManager.reset_sources (search_tools.py lines 282-286): clear
`last_sources` on every tool that has the attribute. -/
def ToolManager.reset_sources (tm : ToolManager) : ToolManager :=
  ⟨tm.tools.map fun p =>
    if p.2.has_last_sources then (p.1, { p.2 with last_sources := [] }) else p⟩

/-- The in-place update a tool performs on its own citation state when it
executes (`self.last_sources = sources`, search_tools.py lines 151 and
235-240). -/
def ToolManager.set_last_sources (tm : ToolManager) (name : String)
    (src : List SourceCitation) : ToolManager :=
  ⟨tm.tools.map fun p =>
    if p.1 = name then (p.1, { p.2 with last_sources := src }) else p⟩

/-- Per-chunk metadata as CourseSearchTool reads it:
`meta.get('course_title', 'unknown')` (defaulted) and
`meta.get('lesson_number')` (may be absent). -/
structure ChunkMeta where
  course_title : Option String
  lesson_number : Option Int
deriving DecidableEq, Repr

/-- Modelled from the spec: `SearchResults` is defined in vector_store.py,
which is not among the sources here; spec section 3 gives
`{documents, metadata, distances, error}` with the invariant that the three
sequences are aligned, and `is_empty() iff documents is empty and error is
unset`.  The `distances` sequence is never read by the embedded code and is
omitted. -/
structure SearchResults where
  documents : List String
  metadata : List ChunkMeta
  error : Option String
deriving DecidableEq, Repr

/-- Modelled from the spec (section 3): `is_empty()` of vector_store.py. -/
def SearchResults.is_empty (r : SearchResults) : Bool :=
  r.documents.isEmpty && r.error.isNone

/-- Python truthiness of an optional string (`if results.error:`). -/
def optTruthy : Option String → Bool
  | none => false
  | some s => s != ""

/-- URL resolution for one (course, lesson) key (search_tools.py lines
110-120): try the lesson link when a lesson number is present, falling back
to the course link when that is falsy; otherwise use the course link
directly.  The batched `unique_sources` dict caches exactly this value per
unique key before the formatting pass, so the per-document lookup
`unique_sources.get(key)` returns this value. -/
def citation_url (get_lesson_link : String → Int → Option String)
    (get_course_link : String → Option String)
    (course_title : String) (lesson_number : Option Int) : Option String :=
  match lesson_number with
  | some n =>
    match get_lesson_link course_title n with
    | some u => if u = "" then get_course_link course_title else some u
    | none => get_course_link course_title
  | none => get_course_link course_title

/-- The ` - Lesson N` suffix used both in the block header and in the
citation text (search_tools.py lines 128-136; present exactly when
`lesson_num is not None`). -/
def lesson_tag : Option Int → String
  | some n => " - Lesson " ++ toString n
  | none => ""

/-- One formatted block (search_tools.py lines 127-131, 148): the
`[Course - Lesson N]` header over the document text. -/
def block_of (doc : String) (meta : ChunkMeta) : String :=
  "[" ++ meta.course_title.getD "unknown" ++ lesson_tag meta.lesson_number
    ++ "]" ++ "\n" ++ doc

/-- One structured citation (search_tools.py lines 133-146): the
`<course> - Lesson <n>` text and the resolved URL for this document's
(course, lesson) key. -/
def citation_of (gl : String → Int → Option String)
    (gc : String → Option String) (meta : ChunkMeta) : SourceCitation :=
  ⟨meta.course_title.getD "unknown" ++ lesson_tag meta.lesson_number,
   citation_url gl gc (meta.course_title.getD "unknown") meta.lesson_number⟩

/-- CourseSearchTool._format_results (search_tools.py lines 95-153): the
`for doc, meta in zip(results.documents, results.metadata)` loop appends one
formatted block and one citation per pair; the blocks are joined by blank
lines and the citation list is the new `last_sources` value (line 151). -/
def format_results (gl : String → Int → Option String)
    (gc : String → Option String) (results : SearchResults) :
    String × List SourceCitation :=
  (String.intercalate "\n\n"
     (List.zipWith block_of results.documents results.metadata),
   List.zipWith (fun _doc meta => citation_of gl gc meta)
     results.documents results.metadata)

/-- The filter suffix of the no-results message (search_tools.py lines
85-90; Python truthiness: an empty course name, or lesson number 0, adds
nothing). -/
def filter_info (course_name : Option String) (lesson_number : Option Int) :
    String :=
  (match course_name with
   | some c => if c = "" then "" else " in course '" ++ c ++ "'"
   | none => "") ++
  (match lesson_number with
   | some n => if n = 0 then "" else " in lesson " ++ toString n
   | none => "")

/-- CourseSearchTool.execute (search_tools.py lines 55-93), relative to the
outcome of `self.store.search` (`Except.error` models a raised store
exception, caught at line 75).  Returns the result string and the tool's
`last_sources` after the call, which changes only when results are
formatted. -/
def searchTool_execute (gl : String → Int → Option String)
    (gc : String → Option String)
    (store_search : Except PyError SearchResults)
    (course_name : Option String) (lesson_number : Option Int)
    (prev_sources : List SourceCitation) : String × List SourceCitation :=
  match store_search with
  | .error e => ("Search error: " ++ e.kind ++ ": " ++ e.msg, prev_sources)
  | .ok results =>
    if optTruthy results.error then (results.error.getD "", prev_sources)
    else if results.is_empty then
      ("No relevant content found" ++ filter_info course_name lesson_number ++ ".",
       prev_sources)
    else format_results gl gc results

/-- Modelled from the spec: the orchestrator's caller (the RAG-system layer,
absent from the sources here), which per spec sections 3 and 4.4 invokes the
registry's reset operation before each fresh query and then runs the
orchestrator against the reset registry. -/
def run_query_modelled (system_prompt : String) (script : List Response)
    (tools : List ToolDef) (tm : ToolManager) (query : String)
    (history : Option String) :
    Option (List Request × String) × ToolManager :=
  let tm0 := tm.reset_sources
  (generate_response system_prompt script tools (some tm0.execute_tool)
     query history, tm0)

/-! ## Shared helper lemmas -/

/-- When the scanned content has a block of text kind, the extraction
returns the first such block's text. -/
theorem extract_final_of_firstText {content : List ContentBlock} {t : String}
    (h : firstText content = some t) : extract_final content = t := by
  cases content with
  | nil => simp [firstText] at h
  | cons b bs => simp [extract_final, h]

/-- A tool invocation that raises contributes exactly the synthesised error
string to the round's result batch. -/
theorem round_results_mem_error (et : ToolExec) {id name : String}
    {input : List (String × String)} {e : PyError} :
    ∀ {content : List ContentBlock},
      ContentBlock.toolUse id name input ∈ content →
      et name input = .error e →
      ToolResult.mk id (toolErrorString name e) ∈ round_results et content := by
  intro content hmem hfail
  induction content with
  | nil => cases hmem
  | cons b rest ih =>
    cases b with
    | text s =>
      rcases List.mem_cons.mp hmem with h | h
      · cases h
      · simpa [round_results] using ih h
    | toolUse id2 name2 input2 =>
      rcases List.mem_cons.mp hmem with h | h
      · cases h
        simp [round_results, hfail]
      · simp only [round_results]
        exact List.mem_cons_of_mem _ (ih h)

/-- A round containing an invocation that executes without raising is a
round in which `any_tool_succeeded` holds. -/
theorem round_any_ok_of_mem_ok (et : ToolExec) {id name : String}
    {input : List (String × String)} {s : String} :
    ∀ {content : List ContentBlock},
      ContentBlock.toolUse id name input ∈ content →
      et name input = .ok s →
      round_any_ok et content = true := by
  intro content hmem hok
  induction content with
  | nil => cases hmem
  | cons b rest ih =>
    cases b with
    | text s2 =>
      rcases List.mem_cons.mp hmem with h | h
      · cases h
      · simpa [round_any_ok] using ih h
    | toolUse id2 name2 input2 =>
      rcases List.mem_cons.mp hmem with h | h
      · cases h
        simp [round_any_ok, hok]
      · simp [round_any_ok, ih h]

/-- Extraction from an empty-content response yields the literal
empty-response error string. -/
theorem extract_final_empty : extract_final [] = emptyResponseError := rfl

/-- Extraction from non-empty content with no text-kind block yields the
literal no-text error string. -/
theorem extract_final_no_text {c : List ContentBlock} (hne : c ≠ [])
    (hft : firstText c = none) : extract_final c = noTextError := by
  cases c with
  | nil => exact absurd rfl hne
  | cons b bs => simp [extract_final, hft]

/-- The round loop consumes an initial segment of the completion script: the
response it exits with splits the script right before the unconsumed tail. -/
theorem tool_loop_script_split (tm : Option ToolExec)
    (catalog : Option (List ToolDef)) (sys : String) :
    ∀ (script : List Response) (msgs : List ChatMessage) (rounds : Nat)
      {trace : List Request} {resp : Response} {msgs2 : List ChatMessage}
      {rem : List Response},
      tool_loop tm catalog sys script msgs rounds
        = some (trace, resp, msgs2, rem) →
      ∃ pre, script = pre ++ resp :: rem := by
  intro script
  induction script with
  | nil =>
    intro msgs rounds trace resp msgs2 rem h
    simp [tool_loop] at h
  | cons r rest ih =>
    intro msgs rounds trace resp msgs2 rem h
    cases tm with
    | none =>
      simp [tool_loop] at h
      exact ⟨[], by simp [h.2.1, h.2.2.2]⟩
    | some et =>
      by_cases hr : r.stop_reason = "tool_use"
      · cases hcond : (decide (MAX_TOOL_ROUNDS ≤ rounds + 1)
            || !(round_any_ok et r.content)) with
        | true =>
          simp [tool_loop, hr, hcond] at h
          exact ⟨[], by simp [h.2.1, h.2.2.2]⟩
        | false =>
          simp only [tool_loop, hr, hcond, if_true, if_false, Bool.false_eq_true,
            reduceIte] at h
          rcases hrec : tool_loop (some et) catalog sys rest
              ((msgs ++ [⟨"assistant", .blocks r.content⟩])
                ++ [⟨"user", .toolResults (round_results et r.content)⟩])
              (rounds + 1) with _ | ⟨trace2, fr, fm, rem2⟩
          · rw [hrec] at h
            simp at h
          · rw [hrec] at h
            simp at h
            obtain ⟨pre, hpre⟩ := ih _ _ hrec
            exact ⟨r :: pre, by simp [hpre, h.2.1, h.2.2.2]⟩
      · simp [tool_loop, hr] at h
        exact ⟨[], by simp [h.2.1, h.2.2.2]⟩

/-! ## Claim theorems -/

/-- C1: if the completion service responds with a tool-use request on rounds
1 and 2 and at least one tool invocation per round executes without raising,
`generate_response` issues exactly 3 completion calls, and the 3rd call's
request has no `tools` field and no `tool_choice` field. -/
theorem two_tool_rounds_make_three_calls
    (system_prompt query : String) (history : Option String)
    (tools : List ToolDef) (et : ToolExec) (r1 r2 r3 : Response)
    (rest : List Response)
    (h1 : r1.stop_reason = "tool_use") (h2 : r2.stop_reason = "tool_use")
    (ha1 : round_any_ok et r1.content = true)
    (ha2 : round_any_ok et r2.content = true) :
    ∃ reqs answer,
      generate_response system_prompt (r1 :: r2 :: r3 :: rest) tools (some et)
          query history = some (reqs, answer)
      ∧ reqs.length = 3
      ∧ ∃ req3, reqs.get? 2 = some req3
          ∧ req3.tools = none ∧ req3.tool_choice = none := by
  simp [generate_response, tool_loop, h1, h2, ha1, ha2, MAX_TOOL_ROUNDS]

/-- C2: if the first completion response requests tools and every tool
invocation in that round fails, `generate_response` issues exactly 2
completion calls, and the 2nd call's request carries no tool catalog. -/
theorem all_tools_failed_two_calls
    (system_prompt query : String) (history : Option String)
    (tools : List ToolDef) (et : ToolExec) (r1 r2 : Response)
    (rest : List Response)
    (h1 : r1.stop_reason = "tool_use")
    (hinv : ∃ id name input, ContentBlock.toolUse id name input ∈ r1.content)
    (ha : round_any_ok et r1.content = false) :
    ∃ reqs answer,
      generate_response system_prompt (r1 :: r2 :: rest) tools (some et)
          query history = some (reqs, answer)
      ∧ reqs.length = 2
      ∧ ∃ req2, reqs.get? 1 = some req2
          ∧ req2.tools = none ∧ req2.tool_choice = none := by
  simp [generate_response, tool_loop, h1, ha, MAX_TOOL_ROUNDS]

/-- C8 (amended): when the first completion response does not request tool
use and carries a text segment, the orchestrator makes exactly one
completion call and returns that first text segment unchanged; when a tool
manager is absent but the first response does request tool use, the
orchestrator instead issues a second, tool-free synthesis call. -/
theorem direct_first_response_one_call
    (system_prompt query : String) (history : Option String)
    (tools : List ToolDef) :
    (∀ (tmgr : Option ToolExec) (r1 : Response) (rest : List Response)
        (t : String),
        r1.stop_reason ≠ "tool_use" → firstText r1.content = some t →
        ∃ req1,
          generate_response system_prompt (r1 :: rest) tools tmgr query history
            = some ([req1], t))
    ∧ (∀ (r1 r2 : Response) (rest : List Response),
        r1.stop_reason = "tool_use" →
        ∃ reqs answer,
          generate_response system_prompt (r1 :: r2 :: rest) tools none query
              history = some (reqs, answer)
          ∧ reqs.length = 2
          ∧ ∃ req2, reqs.get? 1 = some req2 ∧ req2.tools = none) := by
  constructor
  · intro tmgr r1 rest t h1 ht
    cases tmgr with
    | none => simp [generate_response, tool_loop, h1, extract_final_of_firstText ht]
    | some et => simp [generate_response, tool_loop, h1, extract_final_of_firstText ht]
  · intro r1 r2 rest h1
    simp [generate_response, tool_loop, h1]

/-- C8 (counterexample): with a tool catalog but no tool manager, a first
response that requests tool use leads to 2 completion calls, not 1 — the
loop breaks at once, but the post-loop forced synthesis still fires. -/
def c8rTool : Response :=
  ⟨"tool_use", [ContentBlock.toolUse "t1" "search_course_content" []]⟩

/-- The direct text response concluding the C8 counterexample run. -/
def c8rText : Response := ⟨"end_turn", [ContentBlock.text "answer"]⟩

/-- C8 is false as stated: in this run no tool manager was supplied, yet the
orchestrator issues 2 completion calls (and returns the second response's
text), not exactly 1. -/
theorem no_tool_manager_still_two_calls :
    (generate_response "SP" [c8rTool, c8rText] [⟨some "search_course_content"⟩]
        none "q" none).map (fun p => (p.1.length, p.2))
      = some (2, "answer") := by rfl

/-- C9: every answer the orchestrator returns is the text extraction of the
final response's content, which is some response of the script; when that
content is empty the answer is the literal empty-response error string, and
when it is non-empty with no text-kind segment the answer is the literal
no-text error string — in both cases a returned string, never a raised
index or attribute fault. -/
theorem empty_or_textless_final_response_error_string
    (system_prompt query : String) (history : Option String)
    (tools : List ToolDef) (tmgr : Option ToolExec) (script : List Response)
    (reqs : List Request) (answer : String)
    (hrun : generate_response system_prompt script tools tmgr query history
        = some (reqs, answer)) :
    ∃ r ∈ script, answer = extract_final r.content
      ∧ (r.content = [] → answer = emptyResponseError)
      ∧ (r.content ≠ [] → firstText r.content = none → answer = noTextError) := by
  simp only [generate_response] at hrun
  rcases hloop : tool_loop tmgr
      (if tools.isEmpty then none else some tools)
      (system_content system_prompt history) script
      [⟨"user", .text query⟩] 0 with _ | ⟨trace, resp, msgs, rem⟩
  · rw [hloop] at hrun
    simp at hrun
  · rw [hloop] at hrun
    obtain ⟨pre, hpre⟩ := tool_loop_script_split _ _ _ _ _ _ hloop
    by_cases hsr : resp.stop_reason = "tool_use"
    · simp only [hsr, if_true, reduceIte] at hrun
      cases rem with
      | nil => simp at hrun
      | cons fresp rem2 =>
        simp at hrun
        refine ⟨fresp, ?_, hrun.2.symm, ?_, ?_⟩
        · rw [hpre]
          simp
        · intro hc
          rw [← hrun.2, hc, extract_final_empty]
        · intro hc hft
          rw [← hrun.2, extract_final_no_text hc hft]
    · simp only [hsr, if_false, reduceIte] at hrun
      simp at hrun
      refine ⟨resp, ?_, hrun.2.symm, ?_, ?_⟩
      · rw [hpre]
        simp
      · intro hc
        rw [← hrun.2, hc, extract_final_empty]
      · intro hc hft
        rw [← hrun.2, extract_final_no_text hc hft]

/-- C4: a tool invocation whose execution raises does not propagate the
exception; the round's result batch contains, for that invocation's id, a
result whose content is exactly
`Error executing tool '<name>': <errorKind>: <message>`, and that batch is
delivered back to the completion service as the user message carried by the
next issued request. -/
theorem tool_exception_becomes_result_string
    (system_prompt query : String) (history : Option String)
    (tools : List ToolDef) (et : ToolExec) (r1 r2 r3 : Response)
    (rest : List Response) (id name : String)
    (input : List (String × String)) (e : PyError)
    (h1 : r1.stop_reason = "tool_use")
    (hmem : ContentBlock.toolUse id name input ∈ r1.content)
    (hfail : et name input = .error e) :
    ToolResult.mk id ("Error executing tool '" ++ name ++ "': "
        ++ e.kind ++ ": " ++ e.msg) ∈ round_results et r1.content
    ∧ ∃ reqs answer req2,
        generate_response system_prompt (r1 :: r2 :: r3 :: rest) tools (some et)
            query history = some (reqs, answer)
        ∧ reqs.get? 1 = some req2
        ∧ ChatMessage.mk "user" (.toolResults (round_results et r1.content))
            ∈ req2.messages := by
  refine ⟨round_results_mem_error et hmem hfail, ?_⟩
  cases hok : round_any_ok et r1.content with
  | false =>
    simp [generate_response, tool_loop, h1, hok, MAX_TOOL_ROUNDS]
  | true =>
    by_cases h2 : r2.stop_reason = "tool_use"
    · simp [generate_response, tool_loop, h1, h2, hok, MAX_TOOL_ROUNDS]
    · simp [generate_response, tool_loop, h1, h2, hok, MAX_TOOL_ROUNDS]

/-- C10: an invocation naming no registered tool yields the literal
not-found string from the registry, without raising; the orchestrator counts
it as a successful execution, so a first round consisting only of
unknown-tool invocations does not trigger the all-tools-failed early exit —
the orchestrator still re-queries with the tool catalog attached. -/
theorem unknown_tool_counts_as_success
    (system_prompt query : String) (history : Option String)
    (tools : List ToolDef) (tm : ToolManager) (r1 r2 r3 : Response)
    (rest : List Response)
    (htools : tools ≠ [])
    (h1 : r1.stop_reason = "tool_use")
    (hsome : ∃ id name input, ContentBlock.toolUse id name input ∈ r1.content)
    (hunk : ∀ id name input, ContentBlock.toolUse id name input ∈ r1.content →
        dictLookup tm.tools name = none) :
    (∀ id name input, ContentBlock.toolUse id name input ∈ r1.content →
        tm.execute_tool name input
          = .ok ("Tool '" ++ name ++ "' not found"))
    ∧ round_any_ok tm.execute_tool r1.content = true
    ∧ ∃ reqs answer req2,
        generate_response system_prompt (r1 :: r2 :: r3 :: rest) tools
            (some tm.execute_tool) query history = some (reqs, answer)
        ∧ reqs.get? 1 = some req2 ∧ req2.tools = some tools
        ∧ req2.tool_choice = some "auto" := by
  have hexec : ∀ id name input,
      ContentBlock.toolUse id name input ∈ r1.content →
      tm.execute_tool name input
        = .ok ("Tool '" ++ name ++ "' not found") := by
    intro id name input hmem
    simp [ToolManager.execute_tool, hunk id name input hmem]
  obtain ⟨id, name, input, hmem⟩ := hsome
  have hok : round_any_ok tm.execute_tool r1.content = true :=
    round_any_ok_of_mem_ok _ hmem (hexec id name input hmem)
  refine ⟨hexec, hok, ?_⟩
  have hne : tools.isEmpty = false := by
    simpa [List.isEmpty_iff] using htools
  by_cases h2 : r2.stop_reason = "tool_use"
  · simp [generate_response, tool_loop, h1, h2, hok, hne, MAX_TOOL_ROUNDS]
  · simp [generate_response, tool_loop, h1, h2, hok, hne, MAX_TOOL_ROUNDS]

/-- C5 (spec-modelled): the modelled caller invokes the registry's reset
before running the orchestrator, so before the first completion call every
registered tool that tracks citations holds an empty citation list and the
registry reports no last sources. -/
theorem reset_clears_citations_before_run
    (system_prompt query : String) (history : Option String)
    (script : List Response) (tools : List ToolDef) (tm : ToolManager) :
    run_query_modelled system_prompt script tools tm query history
      = (generate_response system_prompt script tools
           (some (ToolManager.execute_tool tm.reset_sources)) query history,
         tm.reset_sources)
    ∧ (∀ p ∈ tm.reset_sources.tools,
        p.2.has_last_sources = true → p.2.last_sources = [])
    ∧ tm.reset_sources.get_last_sources = [] := by
  refine ⟨rfl, ?_, ?_⟩
  · intro p hp htrack
    simp only [ToolManager.reset_sources] at hp
    obtain ⟨q, hq, hpq⟩ := List.mem_map.mp hp
    cases hb : q.2.has_last_sources with
    | true =>
      rw [← hpq]
      simp [hb]
    | false =>
      rw [← hpq] at htrack
      simp [hb] at htrack
  · have hnone : (tm.reset_sources.tools.find? fun p =>
        p.2.has_last_sources && !p.2.last_sources.isEmpty) = none := by
      rw [List.find?_eq_none]
      intro x hx
      simp only [ToolManager.reset_sources] at hx
      obtain ⟨q, hq, hpq⟩ := List.mem_map.mp hx
      cases hb : q.2.has_last_sources with
      | true =>
        rw [← hpq]
        simp [hb]
      | false =>
        rw [← hpq]
        simp [hb]
    simp [ToolManager.get_last_sources, hnone]

/-- A zip over aligned lists whose function ignores the first component is
the map over the second list. -/
theorem zipWith_snd_eq_map {α β γ : Type} (f : β → γ) :
    ∀ (l1 : List α) (l2 : List β), l2.length = l1.length →
      List.zipWith (fun _ m => f m) l1 l2 = l2.map f := by
  intro l1
  induction l1 with
  | nil =>
    intro l2 h
    cases l2 with
    | nil => rfl
    | cons b l2 => simp at h
  | cons a l1 ih =>
    intro l2 h
    cases l2 with
    | nil => simp at h
    | cons b l2 => simp [ih l2 (by simpa using h)]

/-- C3 (amended): on a non-empty, error-free result set with aligned
metadata, `execute` stores one citation per returned document in result
order — citations repeat when documents share a (course, lesson) pair; only
the batched URL lookups are deduplicated — and the returned text is the
blank-line join of one formatted block per document. -/
theorem searchTool_execute_citation_per_document
    (gl : String → Int → Option String) (gc : String → Option String)
    (results : SearchResults) (course_name : Option String)
    (lesson_number : Option Int) (prev : List SourceCitation)
    (herr : results.error = none) (hne : results.documents ≠ [])
    (hlen : results.metadata.length = results.documents.length) :
    (searchTool_execute gl gc (.ok results) course_name lesson_number prev).2
      = results.metadata.map (citation_of gl gc)
    ∧ (searchTool_execute gl gc (.ok results) course_name lesson_number
        prev).2.length = results.documents.length
    ∧ (searchTool_execute gl gc (.ok results) course_name lesson_number prev).1
      = String.intercalate "\n\n"
          (List.zipWith block_of results.documents results.metadata)
    ∧ (List.zipWith block_of results.documents results.metadata).length
      = results.documents.length := by
  have hdoc : results.documents.isEmpty = false := by
    simpa [List.isEmpty_iff] using hne
  have hred : searchTool_execute gl gc (.ok results) course_name lesson_number
      prev = format_results gl gc results := by
    simp [searchTool_execute, optTruthy, herr, SearchResults.is_empty, hdoc]
  rw [hred]
  refine ⟨zipWith_snd_eq_map _ _ _ hlen, ?_, rfl, ?_⟩
  · show (List.zipWith _ results.documents results.metadata).length = _
    rw [zipWith_snd_eq_map _ _ _ hlen]
    simp [hlen]
  · simp [hlen]

/-- The concrete chunk metadata of the C3 counterexample: both documents come
from the same course and lesson. -/
def c3meta : ChunkMeta := ⟨some "CourseA", some 1⟩

/-- The concrete two-document, error-free result set of the C3
counterexample. -/
def c3results : SearchResults := ⟨["doc1", "doc2"], [c3meta, c3meta], none⟩

/-- C3 is false as stated: a result set of 2 documents from the same course
and lesson yields 2 recorded citations (one per document, identical), not
exactly 1 deduplicated citation, while the formatted text has one block per
document. -/
theorem two_same_lesson_docs_record_two_citations :
    (searchTool_execute (fun _ _ => some "http:lesson")
        (fun _ => some "http:course") (.ok c3results) none none []).2
      = [⟨"CourseA - Lesson 1", some "http:lesson"⟩,
         ⟨"CourseA - Lesson 1", some "http:lesson"⟩]
    ∧ (searchTool_execute (fun _ _ => some "http:lesson")
        (fun _ => some "http:course") (.ok c3results) none none []).1
      = "[CourseA - Lesson 1]\ndoc1\n\n[CourseA - Lesson 1]\ndoc2" := by
  constructor <;> rfl

/-- Replacing the value at a present key leaves the key sequence of the dict
unchanged; inserting a fresh key appends it. -/
theorem dictInsert_keys (d : List (String × MTool)) (k : String) (v : MTool) :
    (dictInsert d k v).map Prod.fst
      = if (d.any fun p => p.1 = k) = true then d.map Prod.fst
        else d.map Prod.fst ++ [k] := by
  by_cases h : (d.any fun p => p.1 = k) = true
  · simp only [dictInsert, h, if_true]
    rw [List.map_map]
    apply List.map_congr_left
    intro p hp
    simp only [Function.comp]
    by_cases hk : p.1 = k
    · simp [hk]
    · simp [hk]
  · simp [dictInsert, h]

/-- After a replacing insert, looking up the key finds the new value. -/
theorem find?_map_replace (k : String) (v : MTool) :
    ∀ (d : List (String × MTool)), (d.any fun p => p.1 = k) = true →
      ((d.map fun p => if p.1 = k then (k, v) else p).find? fun p => p.1 = k)
        = some (k, v) := by
  intro d
  induction d with
  | nil => intro h; simp at h
  | cons q d ih =>
    intro h
    by_cases hk : q.1 = k
    · simp [hk]
    · simp only [List.map_cons, if_neg hk]
      rw [List.find?_cons_of_neg _ (by simpa using hk)]
      exact ih (by simpa [List.any_cons, hk] using h)

/-- After an appending insert at a key absent from the dict, looking up the
key finds the appended value. -/
theorem find?_append_fresh (k : String) (v : MTool) :
    ∀ (d : List (String × MTool)), (∀ p ∈ d, p.1 ≠ k) →
      ((d ++ [(k, v)]).find? fun p => p.1 = k) = some (k, v) := by
  intro d
  induction d with
  | nil => simp
  | cons q d ih =>
    intro h
    rw [List.cons_append, List.find?_cons_of_neg _ (by simpa using h q (by simp))]
    exact ih fun p hp => h p (by simp [hp])

/-- Looking up the inserted key after a dict write finds the written value. -/
theorem dictLookup_insert (d : List (String × MTool)) (k : String) (v : MTool) :
    dictLookup (dictInsert d k v) k = some v := by
  by_cases h : (d.any fun p => p.1 = k) = true
  · simp only [dictInsert, h, if_true, dictLookup]
    rw [find?_map_replace k v d h]
    rfl
  · have h2 : ∀ p ∈ d, p.1 ≠ k := by
      intro p hp he
      exact h (List.any_eq_true.mpr ⟨p, hp, by simp [he]⟩)
    simp only [dictInsert, h, if_false, dictLookup, Bool.false_eq_true, reduceIte]
    rw [find?_append_fresh k v d h2]
    rfl

/-- C6 (amended): registering a tool whose definition lacks a name (or has an
empty one) raises the configuration error, leaving the mapping unchanged;
registering under a name that collides with an already-registered tool raises
nothing — the registration succeeds, the key sequence is unchanged, and the
colliding entry is silently replaced by the new tool (a fresh name is
appended instead). -/
theorem register_tool_unnamed_raises_collision_replaces
    (tm : ToolManager) (t : MTool) :
    ((t.def_name = none ∨ t.def_name = some "") →
        tm.register_tool t
          = .error "Tool must have a 'name' in its definition")
    ∧ (∀ s, t.def_name = some s → s ≠ "" →
        ∃ tm2, tm.register_tool t = .ok tm2
          ∧ dictLookup tm2.tools s = some t
          ∧ tm2.tools.map Prod.fst
            = (if (tm.tools.any fun p => p.1 = s) = true
               then tm.tools.map Prod.fst
               else tm.tools.map Prod.fst ++ [s])) := by
  constructor
  · rintro (h | h) <;> simp [ToolManager.register_tool, h]
  · intro s hs hne
    refine ⟨⟨dictInsert tm.tools s t⟩, ?_, dictLookup_insert tm.tools s t,
      dictInsert_keys tm.tools s t⟩
    simp [ToolManager.register_tool, hs, hne]

/-- The tool registered first in the C6 counterexample. -/
def c6tool : MTool := ⟨some "dup", fun _ => .ok "first", true, []⟩

/-- A second tool whose definition carries the same name. -/
def c6tool2 : MTool := ⟨some "dup", fun _ => .ok "second", true, []⟩

/-- The registry already holding a tool named "dup". -/
def c6tm : ToolManager := ⟨[("dup", c6tool)]⟩

/-- C6 is false as stated for collisions: registering a second tool under an
already-registered name raises no configuration error — the call succeeds
and the mapping still holds exactly one entry for that name (the new tool
replaced the old one: its run now answers "second"). -/
theorem duplicate_registration_raises_nothing :
    (match c6tm.register_tool c6tool2 with
     | .error _ => true
     | .ok _ => false) = false
    ∧ (match c6tm.register_tool c6tool2 with
       | .error _ => []
       | .ok tm2 => tm2.tools.map Prod.fst) = ["dup"]
    ∧ (match c6tm.register_tool c6tool2 with
       | .error _ => (Except.error ⟨"", ""⟩ : Except PyError String)
       | .ok tm2 => tm2.execute_tool "dup" []) = .ok "second" :=
  ⟨rfl, rfl, rfl⟩

/-- The first element of a list satisfying the scan predicate is what
`find?` returns, once everything before it fails the predicate. -/
theorem find?_first_satisfying
    (k : String) (t : MTool) (post : List (String × MTool))
    (ht : (t.has_last_sources && !t.last_sources.isEmpty) = true) :
    ∀ (pre : List (String × MTool)),
      (∀ p ∈ pre, (p.2.has_last_sources && !p.2.last_sources.isEmpty) = false) →
      ((pre ++ (k, t) :: post).find? fun p =>
          p.2.has_last_sources && !p.2.last_sources.isEmpty) = some (k, t) := by
  intro pre
  induction pre with
  | nil =>
    intro _
    simp [List.find?_cons_of_pos, ht]
  | cons q pre ih =>
    intro h
    rw [List.cons_append,
      List.find?_cons_of_neg _ (by simpa using h q (by simp))]
    exact ih fun p hp => h p (by simp [hp])

/-- C7 (amended): `get_last_sources` returns the stored citation list of the
first tool in registration (insertion) order whose list is non-empty, among
the tools that track citations — not necessarily that of the tool that
executed most recently, and the result does depend on registration order. -/
theorem get_last_sources_first_nonempty
    (pre post : List (String × MTool)) (k : String) (t : MTool)
    (hpre : ∀ p ∈ pre, p.2.has_last_sources = false ∨ p.2.last_sources = [])
    (ht : t.has_last_sources = true) (hne : t.last_sources ≠ []) :
    ToolManager.get_last_sources ⟨pre ++ (k, t) :: post⟩ = t.last_sources := by
  have hb : (t.has_last_sources && !t.last_sources.isEmpty) = true := by
    have : t.last_sources.isEmpty = false := by
      simpa [List.isEmpty_iff] using hne
    simp [ht, this]
  have hpre2 : ∀ p ∈ pre,
      (p.2.has_last_sources && !p.2.last_sources.isEmpty) = false := by
    intro p hp
    rcases hpre p hp with h | h <;> simp [h]
  simp [ToolManager.get_last_sources,
    find?_first_satisfying k t post hb pre hpre2]

/-- The tool registered under "A" in the C7 counterexample. -/
def c7toolA : MTool := ⟨some "A", fun _ => .ok "ra", true, []⟩

/-- The tool registered under "B" in the C7 counterexample. -/
def c7toolB : MTool := ⟨some "B", fun _ => .ok "rb", true, []⟩

/-- The citation stored by tool A's earlier execution. -/
def c7citeA : SourceCitation := ⟨"from A", none⟩

/-- The citation stored by tool B's later (most recent) execution. -/
def c7citeB : SourceCitation := ⟨"from B", none⟩

/-- Registration order A then B, with A executing first and B executing most
recently. -/
def c7after : ToolManager :=
  ((⟨[("A", c7toolA), ("B", c7toolB)]⟩ : ToolManager).set_last_sources "A"
      [c7citeA]).set_last_sources "B" [c7citeB]

/-- The same two executions with the registration order reversed. -/
def c7afterRev : ToolManager :=
  ((⟨[("B", c7toolB), ("A", c7toolA)]⟩ : ToolManager).set_last_sources "A"
      [c7citeA]).set_last_sources "B" [c7citeB]

/-- C7 is false as stated: with both tools holding non-empty citations and B
the most recently executed, `get_last_sources` returns A's citations when A
was registered first — and returns B's when the registration order is
reversed, so the result does depend on registration order, not on execution
recency. -/
theorem get_last_sources_not_most_recent :
    c7after.get_last_sources = [c7citeA]
    ∧ c7afterRev.get_last_sources = [c7citeB] := ⟨rfl, rfl⟩

/-! ## Concrete witness runs -/

/-- A concrete always-succeeding tool executor. -/
def wExecOK : ToolExec := fun _ _ => .ok "tool output"

/-- A concrete exception value. -/
def wErr : PyError := ⟨"ValueError", "boom"⟩

/-- A concrete always-raising tool executor. -/
def wExecFail : ToolExec := fun _ _ => .error wErr

/-- A concrete tool-use response with one invocation. -/
def wToolResp : Response :=
  ⟨"tool_use", [.toolUse "id1" "search_course_content" [("query", "mcp")]]⟩

/-- A concrete direct text response. -/
def wTextResp : Response := ⟨"end_turn", [.text "the answer"]⟩

/-- A concrete final response with empty content. -/
def wEmptyResp : Response := ⟨"end_turn", []⟩

/-- A concrete tool catalog. -/
def wCatalog : List ToolDef := [⟨some "search_course_content"⟩]

/-- C1 witness: the concrete run in which the service requests tools on both
rounds and every invocation succeeds. -/
theorem two_tool_rounds_make_three_calls_witness :
    ∃ reqs answer,
      generate_response "SP" [wToolResp, wToolResp, wTextResp] wCatalog
          (some wExecOK) "q" none = some (reqs, answer)
      ∧ reqs.length = 3
      ∧ ∃ req3, reqs.get? 2 = some req3
          ∧ req3.tools = none ∧ req3.tool_choice = none :=
  two_tool_rounds_make_three_calls "SP" "q" none wCatalog wExecOK wToolResp
    wToolResp wTextResp [] rfl rfl rfl rfl

/-- C2 witness: the concrete run in which the only round-1 invocation
raises. -/
theorem all_tools_failed_two_calls_witness :
    ∃ reqs answer,
      generate_response "SP" [wToolResp, wTextResp] wCatalog (some wExecFail)
          "q" none = some (reqs, answer)
      ∧ reqs.length = 2
      ∧ ∃ req2, reqs.get? 1 = some req2
          ∧ req2.tools = none ∧ req2.tool_choice = none :=
  all_tools_failed_two_calls "SP" "q" none wCatalog wExecFail wToolResp
    wTextResp [] rfl
    ⟨"id1", "search_course_content", [("query", "mcp")], by simp [wToolResp]⟩
    rfl

/-- C3 witness: the amended per-document citation property evaluated on the
concrete two-document result set. -/
theorem searchTool_execute_citation_per_document_witness :
    (searchTool_execute (fun _ _ => some "http:lesson")
        (fun _ => some "http:course") (.ok c3results) none none []).2
      = c3results.metadata.map (citation_of (fun _ _ => some "http:lesson")
          (fun _ => some "http:course"))
    ∧ (searchTool_execute (fun _ _ => some "http:lesson")
        (fun _ => some "http:course") (.ok c3results) none none []).2.length
      = c3results.documents.length
    ∧ (searchTool_execute (fun _ _ => some "http:lesson")
        (fun _ => some "http:course") (.ok c3results) none none []).1
      = String.intercalate "\n\n"
          (List.zipWith block_of c3results.documents c3results.metadata)
    ∧ (List.zipWith block_of c3results.documents c3results.metadata).length
      = c3results.documents.length :=
  searchTool_execute_citation_per_document (fun _ _ => some "http:lesson")
    (fun _ => some "http:course") c3results none none [] rfl (by decide) rfl

/-- C4 witness: the concrete raising invocation's synthesised result string
and its delivery in the concrete run. -/
theorem tool_exception_becomes_result_string_witness :
    ToolResult.mk "id1" ("Error executing tool '" ++ "search_course_content"
        ++ "': " ++ wErr.kind ++ ": " ++ wErr.msg)
      ∈ round_results wExecFail wToolResp.content
    ∧ ∃ reqs answer req2,
        generate_response "SP" [wToolResp, wTextResp, wTextResp] wCatalog
            (some wExecFail) "q" none = some (reqs, answer)
        ∧ reqs.get? 1 = some req2
        ∧ ChatMessage.mk "user"
            (.toolResults (round_results wExecFail wToolResp.content))
            ∈ req2.messages :=
  tool_exception_becomes_result_string "SP" "q" none wCatalog wExecFail
    wToolResp wTextResp wTextResp [] "id1" "search_course_content"
    [("query", "mcp")] wErr rfl (by simp [wToolResp]) rfl

/-- C7 witness: the amended first-non-empty scan property evaluated at a
concrete registry state. -/
theorem get_last_sources_first_nonempty_witness :
    ToolManager.get_last_sources
        ⟨[] ++ ("A", { c7toolA with last_sources := [c7citeA] })
            :: [("B", c7toolB)]⟩
      = ({ c7toolA with last_sources := [c7citeA] } : MTool).last_sources :=
  get_last_sources_first_nonempty [] [("B", c7toolB)] "A"
    { c7toolA with last_sources := [c7citeA] } (by simp) rfl (by decide)

/-- C9 witness: the concrete run whose final (only) response carries empty
content and yields the literal empty-response error string. -/
theorem empty_final_response_witness :
    ∃ r ∈ [wEmptyResp], emptyResponseError = extract_final r.content
      ∧ (r.content = [] → emptyResponseError = emptyResponseError)
      ∧ (r.content ≠ [] → firstText r.content = none →
          emptyResponseError = noTextError) :=
  empty_or_textless_final_response_error_string "SP" "q" none [] none
    [wEmptyResp] [⟨[⟨"user", .text "q"⟩], none, none, "SP"⟩]
    emptyResponseError rfl

/-- C10 witness: the concrete run against an empty registry — the unknown
invocation yields the not-found string, counts as a success, and the second
request still carries the catalog. -/
theorem unknown_tool_counts_as_success_witness :
    (∀ id name input, ContentBlock.toolUse id name input ∈ wToolResp.content →
        (⟨[]⟩ : ToolManager).execute_tool name input
          = .ok ("Tool '" ++ name ++ "' not found"))
    ∧ round_any_ok (⟨[]⟩ : ToolManager).execute_tool wToolResp.content = true
    ∧ ∃ reqs answer req2,
        generate_response "SP" [wToolResp, wTextResp, wTextResp] wCatalog
            (some (⟨[]⟩ : ToolManager).execute_tool) "q" none
          = some (reqs, answer)
        ∧ reqs.get? 1 = some req2 ∧ req2.tools = some wCatalog
        ∧ req2.tool_choice = some "auto" :=
  unknown_tool_counts_as_success "SP" "q" none wCatalog ⟨[]⟩ wToolResp
    wTextResp wTextResp [] (by decide) rfl
    ⟨"id1", "search_course_content", [("query", "mcp")], by simp [wToolResp]⟩
    (fun _ _ _ _ => rfl)
